import Mathlib

/-!
Verification of the Automated Deployment Analysis (ADA) stage executor of the
pipe repository against its natural-language specification.

The Go sources embedded here are:
- the ANALYSIS stage orchestrator `Execute`, the metadata helpers
  `saveElapsedTime` / `retrievePreviousElapsedTime`, the templatable-check
  resolvers `getMetricsConfig` / `getLogConfig` / `getHTTPConfig` and the
  template `render` function (package `analysis`, executor file);
- the dynamic metrics analyzer constructor `newDynamicMetricsAnalyzer` and its
  (stubbed) `run` loop from `dynamic_analyzer.go`.

Parts of the repository that the frozen claims depend on but whose
implementation files are not among the sources (the shared analyzer tick loop,
`metricsAnalyzer.analyzeWithThreshold`, and the Mann-Whitney `compare`
primitive, of which only tests or callers appear) are modelled from the
specification; each such definition carries a doc comment starting
`Modelled from the spec:`.

Durations are modelled as integers (Go `time.Duration` is an `int64` count of
nanoseconds; the unit is irrelevant to the statements). Metric values are
modelled as rationals standing for the exact decimal `float64` literals used by
the code and its tests, on which all arithmetic performed here is exact.
-/

namespace Pipe

/-- Truth value of an `Except` being a success; used to state error behavior
without fixing message texts. -/
def okB {ε α : Type} : Except ε α → Bool
  | .ok _ => true
  | .error _ => false

/-- Stage statuses relevant to the analysis executor (model.StageStatus). -/
inductive StageStatus where
  | success
  | failure
  | cancelled
deriving DecidableEq, Repr

/-- Stop-signal kinds carried by executor.StopSignal (NONE / TERMINATE / CANCEL). -/
inductive SignalType where
  | noSignal
  | terminate
  | cancel
deriving DecidableEq, Repr

/-- Outcome of one analyzer tick, classifying the `(ok, reason, err)` triple
returned by the kind-specific runner: `ok` for a passing evaluation, `breach`
for `ok=false` or a non-no-data error, `noData` for the no-data sentinel
error. -/
inductive TickOutcome where
  | ok
  | breach
  | noData
deriving DecidableEq, Repr

/-- Modelled from the spec: the shared analyzer tick loop (`analyzer.run`) is
not among the sources (only its construction sites via `newAnalyzer` are).
Spec 4.3: on a breach increment `consecutiveFailures` and return an error as
soon as `consecutiveFailures > failureLimit`; on a passing tick reset the
counter; on no-data with `skipOnNoData` reset and continue, otherwise count it
as a failure. The function returns `true` iff the analyzer returns an error on
the given finite sequence of tick outcomes, starting from `cf` consecutive
failures. -/
def analyzerRun (failureLimit : Nat) (skipOnNoData : Bool) : Nat → List TickOutcome → Bool
  | _, [] => false
  | _, .ok :: rest => analyzerRun failureLimit skipOnNoData 0 rest
  | cf, .noData :: rest =>
    if skipOnNoData then
      analyzerRun failureLimit skipOnNoData 0 rest
    else if failureLimit < cf + 1 then
      true
    else
      analyzerRun failureLimit skipOnNoData (cf + 1) rest
  | cf, .breach :: rest =>
    if failureLimit < cf + 1 then
      true
    else
      analyzerRun failureLimit skipOnNoData (cf + 1) rest

theorem analyzerRun_replicate_breach (F : Nat) (s : Bool) :
    ∀ (n cf : Nat), cf ≤ F →
      analyzerRun F s cf (List.replicate n .breach) = decide (F + 1 ≤ cf + n) := by
  intro n
  induction n with
  | zero =>
    intro cf hcf
    simp [analyzerRun]
    omega
  | succ n ih =>
    intro cf hcf
    rw [List.replicate_succ]
    by_cases h : F < cf + 1
    · have hcfF : cf = F := by omega
      simp [analyzerRun, h]
      omega
    · have hle : cf + 1 ≤ F := by omega
      simp only [analyzerRun, if_neg h]
      rw [ih (cf + 1) hle]
      congr 1
      · simp
        omega

theorem analyzerRun_breach_append (F : Nat) (s : Bool) (rest : List TickOutcome) :
    ∀ (k cf : Nat), cf + k ≤ F →
      analyzerRun F s cf (List.replicate k .breach ++ rest) =
        analyzerRun F s (cf + k) rest := by
  intro k
  induction k with
  | zero =>
    intro cf _
    simp
  | succ k ih =>
    intro cf hk
    rw [List.replicate_succ, List.cons_append]
    have hlt : ¬ F < cf + 1 := by omega
    simp only [analyzerRun, if_neg hlt]
    rw [ih (cf + 1) (by omega)]
    congr 1
    omega

/-- C1: for every analyzer configured with `failureLimit = F`, the analyzer
returns an error after exactly `F + 1` consecutive failing ticks and not
before: on a run of `n` consecutive breaches the analyzer errors iff
`n ≥ F + 1` (so `failureLimit = 0` fails on the first breach and
`failureLimit = N` tolerates up to `N` consecutive breaches, failing on the
`(N+1)`-th); moreover a passing tick in between resets the counter, so `F`
breaches, a pass, and `F` further breaches never error. -/
theorem C1_consecutive_failure_limit (F n : Nat) (s : Bool) :
    analyzerRun F s 0 (List.replicate n .breach) = decide (F + 1 ≤ n) ∧
    analyzerRun F s 0
      (List.replicate F .breach ++ .ok :: List.replicate F .breach) = false := by
  constructor
  · rw [analyzerRun_replicate_breach F s n 0 (Nat.zero_le F)]
    simp
  · rw [analyzerRun_breach_append F s _ F 0 (by omega)]
    show analyzerRun F s 0 (List.replicate F .breach) = false
    rw [analyzerRun_replicate_breach F s F 0 (Nat.zero_le F)]
    simp

/-! Stage orchestrator: `Execute` of the analysis executor, together with the
metadata helpers `retrievePreviousElapsedTime` and `saveElapsedTime`. -/

/-- Metadata key under which the stage stores its accumulated elapsed time. -/
def elapsedTimeKey : String := "elapsedTime"

/-- Translation of `retrievePreviousElapsedTime`: reads the stage metadata
(absent metadata modelled as `none`), looks up the `elapsedTime` key, and
parses the stored string as a duration. Go's `time.ParseDuration` is standard
library code and is abstracted as the `parse` argument, returning `none` on a
parse error. Every failure path yields `0`. -/
def retrievePreviousElapsedTime (parse : String → Option Int)
    (metadata : Option (List (String × String))) : Int :=
  match metadata with
  | none => 0
  | some m =>
    match m.lookup elapsedTimeKey with
    | none => 0
    | some s =>
      match parse s with
      | none => 0
      | some et => et

/-- Translation of the timeout computation in `Execute`: the timeout starts as
the configured duration and the previously elapsed time is subtracted only
when it is strictly positive. -/
def analysisTimeout (duration prevElapsed : Int) : Int :=
  if 0 < prevElapsed then duration - prevElapsed else duration

/-- Translation of `saveElapsedTime`: the stored value is
`time.Since(startTime) + previousElapsedTime`, i.e. the wall time of this run
plus the previously accumulated elapsed time. -/
def savedElapsedTime (wallTime prevElapsed : Int) : Int :=
  wallTime + prevElapsed

/-- Inputs of one run of the analysis executor's `Execute`, abstracting its
collaborators: whether `AnalysisStageOptions` is present, the configured
duration, whether the running deploy source and the analysis template loaded
(a missing template file counts as loaded-empty), the raw stage metadata and
the duration parser feeding `retrievePreviousElapsedTime`, whether every
analyzer was constructed successfully, the first analyzer error returned by
the error group (if any), the wall time of this run, and the stage's original
status passed to `DetermineStageStatus`. -/
structure ExecuteEnv where
  optionsPresent : Bool
  duration : Int
  deploySourceOk : Bool
  templateLoadOk : Bool
  prevMetadata : Option (List (String × String))
  parseDuration : String → Option Int
  spawnOk : Bool
  analyzerResult : Option String
  wallTime : Int
  originalStatus : StageStatus

/-- Observable outcome of one `Execute` run: the returned stage status, the
deadline installed on the stage context (if execution reached that point), the
`elapsedTime` value written to stage metadata (if written), whether
`DetermineStageStatus` was consulted, and whether the `AnalysisResult` was
persisted. -/
structure ExecuteOutcome where
  status : StageStatus
  installedDeadline : Option Int
  savedMetadata : Option Int
  determineConsulted : Bool
  resultPersisted : Bool
deriving Repr

/-- Translation of the control flow of the analysis executor's `Execute`.
`determine` abstracts the external pure helper `executor.DetermineStageStatus`.
Early returns (missing options, deploy-source failure, template-load failure)
happen before the deferred `saveElapsedTime` is installed, so they write no
metadata; from there on every path writes `savedElapsedTime`. An analyzer
construction failure or a first analyzer error returns `STAGE_FAILURE`
directly; only the error-free path consults `DetermineStageStatus` and, when
that yields success, persists the `AnalysisResult`. -/
def executeStage (determine : SignalType → StageStatus → StageStatus → StageStatus)
    (sig : SignalType) (env : ExecuteEnv) : ExecuteOutcome :=
  if !env.optionsPresent then
    ⟨.failure, none, none, false, false⟩
  else if !env.deploySourceOk then
    ⟨.failure, none, none, false, false⟩
  else if !env.templateLoadOk then
    ⟨.failure, none, none, false, false⟩
  else
    let prev := retrievePreviousElapsedTime env.parseDuration env.prevMetadata
    let timeout := analysisTimeout env.duration prev
    let saved := savedElapsedTime env.wallTime prev
    if !env.spawnOk then
      ⟨.failure, some timeout, some saved, false, false⟩
    else
      match env.analyzerResult with
      | some _ => ⟨.failure, some timeout, some saved, false, false⟩
      | none =>
        let st := determine sig env.originalStatus .success
        if st = .success then
          ⟨st, some timeout, some saved, true, true⟩
        else
          ⟨st, some timeout, some saved, true, false⟩

/-- Model of `DetermineStageStatus` for the case of no external stop signal:
the locally computed status is returned unchanged. Used only to build concrete
inputs for witnesses and counterexamples. -/
def determinePassThrough : SignalType → StageStatus → StageStatus → StageStatus :=
  fun _ _ local_ => local_

/-- Duration parser sample accepting exactly the strings appearing in the
concrete scenarios below; Go's `time.ParseDuration` accepts signed durations
such as `"-1m0s"`, which parses to minus one minute. -/
def parseDurationSample : String → Option Int :=
  fun s =>
    if s = "-1m0s" then some (-60)
    else if s = "20m0s" then some 1200
    else none

/-- Stage-run sample whose stored `elapsedTime` is the negative duration
`"-1m0s"`: configuration present, deploy source and template loaded, all
analyzers constructed, no analyzer error, wall time 5, duration 1800. -/
def envNegativeStored : ExecuteEnv :=
  { optionsPresent := true
    duration := 1800
    deploySourceOk := true
    templateLoadOk := true
    prevMetadata := some [(elapsedTimeKey, "-1m0s")]
    parseDuration := parseDurationSample
    spawnOk := true
    analyzerResult := none
    wallTime := 5
    originalStatus := .success }

/-- C2 counterexample: with duration `D = 1800` and a stored previous elapsed
time that parses to `P = -60`, the deadline installed on the stage context is
the full `1800`, not `D - P = 1860`: the source subtracts the previous elapsed
time only when it is strictly positive, so the claimed identity
`deadline = D - P` fails for a stored negative duration. -/
theorem C2_deadline_counterexample :
    retrievePreviousElapsedTime parseDurationSample
      (some [(elapsedTimeKey, "-1m0s")]) = -60 ∧
    (executeStage determinePassThrough .noSignal envNegativeStored).installedDeadline
      = some 1800 ∧
    (1800 : Int) ≠ 1800 - (-60) := by
  refine ⟨by decide, by decide, by decide⟩

/-- C2 (amended): for every stage run that reaches the deadline installation
(options present, deploy source and template loaded) with stored previous
elapsed time `P` and configured duration `D`, the installed deadline equals
`D - max P 0` — hence `D - P` whenever the stored value is nonnegative, while
a stored negative duration is ignored — and the `elapsedTime` written to stage
metadata at stage exit equals `P` plus the wall time of this run, on every
such path regardless of outcome (spawn failure, analyzer error, or any verdict
of `DetermineStageStatus`). -/
theorem C2_deadline_and_saved_elapsed
    (determine : SignalType → StageStatus → StageStatus → StageStatus)
    (sig : SignalType) (env : ExecuteEnv)
    (hopt : env.optionsPresent = true)
    (hds : env.deploySourceOk = true)
    (htpl : env.templateLoadOk = true) :
    (executeStage determine sig env).installedDeadline
      = some (env.duration -
          max (retrievePreviousElapsedTime env.parseDuration env.prevMetadata) 0) ∧
    (executeStage determine sig env).savedMetadata
      = some (retrievePreviousElapsedTime env.parseDuration env.prevMetadata +
          env.wallTime) := by
  set prev := retrievePreviousElapsedTime env.parseDuration env.prevMetadata with hprev
  have htimeout : analysisTimeout env.duration prev = env.duration - max prev 0 := by
    unfold analysisTimeout
    split <;> omega
  have hsaved : savedElapsedTime env.wallTime prev = prev + env.wallTime := by
    rw [savedElapsedTime]
    omega
  unfold executeStage
  rw [hopt, hds, htpl]
  simp only [Bool.not_true, Bool.false_eq_true, if_false, ← hprev, htimeout, hsaved]
  cases hs : env.spawnOk
  · simp
  · cases env.analyzerResult
    · simp only [Bool.not_true, Bool.false_eq_true, if_false]
      split <;> exact ⟨rfl, rfl⟩
    · simp

/-- Witness for C2 (amended): a resume scenario with duration 1800, stored
`elapsedTime` string `"20m0s"` parsing to 1200, wall time 5: the installed
deadline equals `600 = 1800 - 1200` and the stored elapsed time equals
`1205 = 1200 + 5`. -/
theorem C2_deadline_and_saved_elapsed_witness :
    (executeStage determinePassThrough .noSignal
        { envNegativeStored with prevMetadata := some [(elapsedTimeKey, "20m0s")] }).installedDeadline
      = some 600 ∧
    (executeStage determinePassThrough .noSignal
        { envNegativeStored with prevMetadata := some [(elapsedTimeKey, "20m0s")] }).savedMetadata
      = some 1205 := by
  have h := C2_deadline_and_saved_elapsed determinePassThrough .noSignal
    { envNegativeStored with prevMetadata := some [(elapsedTimeKey, "20m0s")] }
    rfl rfl rfl
  simpa using h

/-- C9: for every stage start, the previous elapsed time is decoded from the
stage-metadata key `elapsedTime`; if the metadata is absent, the key is
absent, or the stored string does not parse as a duration, the previous
elapsed time is `0` (so `analysisTimeout` then uses the full configured
duration as the deadline). -/
theorem C9_previous_elapsed_time_defaults (parse : String → Option Int)
    (m : List (String × String)) (s : String) (duration : Int) :
    retrievePreviousElapsedTime parse none = 0 ∧
    (m.lookup elapsedTimeKey = none →
      retrievePreviousElapsedTime parse (some m) = 0) ∧
    (m.lookup elapsedTimeKey = some s → parse s = none →
      retrievePreviousElapsedTime parse (some m) = 0) ∧
    analysisTimeout duration 0 = duration := by
  refine ⟨rfl, ?_, ?_, ?_⟩
  · intro h
    simp [retrievePreviousElapsedTime, h]
  · intro h hp
    simp [retrievePreviousElapsedTime, h, hp]
  · simp [analysisTimeout]

/-- Witness for C9: metadata whose only key is not `elapsedTime` decodes to 0,
and metadata storing the unparsable string `"not-a-duration"` under
`elapsedTime` also decodes to 0. -/
theorem C9_previous_elapsed_time_defaults_witness :
    retrievePreviousElapsedTime parseDurationSample (some [("other", "3m")]) = 0 ∧
    retrievePreviousElapsedTime parseDurationSample
      (some [(elapsedTimeKey, "not-a-duration")]) = 0 := by
  constructor
  · exact (C9_previous_elapsed_time_defaults parseDurationSample
      [("other", "3m")] "x" 0).2.1 (by decide)
  · exact (C9_previous_elapsed_time_defaults parseDurationSample
      [(elapsedTimeKey, "not-a-duration")] "not-a-duration" 0).2.2.1
      (by decide) (by decide)

/-- C10: if any analyzer returns an error, `Execute` returns `STAGE_FAILURE`
immediately without consulting `DetermineStageStatus` and without persisting
the `AnalysisResult`; conversely, `DetermineStageStatus` is consulted or the
result persisted only on the path where every analyzer completed without
error. -/
theorem C10_analyzer_error_short_circuits
    (determine : SignalType → StageStatus → StageStatus → StageStatus)
    (sig : SignalType) (env : ExecuteEnv) (e : String) :
    (env.optionsPresent = true → env.deploySourceOk = true →
      env.templateLoadOk = true → env.spawnOk = true →
      env.analyzerResult = some e →
      (executeStage determine sig env).status = .failure ∧
      (executeStage determine sig env).determineConsulted = false ∧
      (executeStage determine sig env).resultPersisted = false) ∧
    ((executeStage determine sig env).determineConsulted = true ∨
      (executeStage determine sig env).resultPersisted = true →
      env.analyzerResult = none) := by
  constructor
  · intro hopt hds htpl hsp herr
    unfold executeStage
    rw [hopt, hds, htpl, hsp, herr]
    exact ⟨rfl, rfl, rfl⟩
  · intro h
    cases hres : env.analyzerResult with
    | none => rfl
    | some v =>
      exfalso
      cases hopt : env.optionsPresent <;>
        cases hds : env.deploySourceOk <;>
          cases htpl : env.templateLoadOk <;>
            cases hsp : env.spawnOk <;>
              simp [executeStage, hopt, hds, htpl, hsp, hres] at h

/-- Witness for C10: with a failing analyzer (`some "analysis failed"`) the
stage status is failure, `DetermineStageStatus` is not consulted and nothing
is persisted; with no analyzer error and no stop signal the helper is
consulted, and applying the converse direction recovers
`analyzerResult = none`. -/
theorem C10_analyzer_error_short_circuits_witness :
    ((executeStage determinePassThrough .noSignal
        { envNegativeStored with analyzerResult := some "analysis failed" }).status
      = .failure ∧
     (executeStage determinePassThrough .noSignal
        { envNegativeStored with analyzerResult := some "analysis failed" }).determineConsulted
      = false ∧
     (executeStage determinePassThrough .noSignal
        { envNegativeStored with analyzerResult := some "analysis failed" }).resultPersisted
      = false) ∧
    envNegativeStored.analyzerResult = none := by
  constructor
  · exact (C10_analyzer_error_short_circuits determinePassThrough .noSignal
      { envNegativeStored with analyzerResult := some "analysis failed" }
      "analysis failed").1 rfl rfl rfl rfl rfl
  · exact (C10_analyzer_error_short_circuits determinePassThrough .noSignal
      envNegativeStored "unused").2 (Or.inl (by decide))

/-! Template rendering: the `render` function of the analysis executor builds
a `templateArgs` value and runs Go `text/template` over the JSON-serialized
template document. -/

/-- Application kinds from the config package; the render function branches
only on whether the kind is `KindKubernetesApp`. -/
inductive AppKind where
  | kubernetesApp
  | terraformApp
  | lambdaApp
  | cloudRunApp
deriving DecidableEq, Repr

/-- Translation of the `templateArgs` struct: built-in fields `App.Name`,
`App.Env`, `K8s.Namespace` plus the user-defined custom args map. -/
structure TemplateArgsCtx where
  appName : String
  appEnv : String
  k8sNamespace : String
  args : List (String × String)

/-- Translation of the argument construction in `render`: `App.Name` is the
application name, `App.Env` is the empty string (the source leaves it
unpopulated, marked TODO), and `K8s.Namespace` is set only when the deployment
kind is `KindKubernetesApp`, to the configured namespace or `"default"` when
none is configured; for other kinds the field keeps its zero value `""`. -/
def buildTemplateArgs (appName : String) (kind : AppKind) (specNamespace : String)
    (customArgs : List (String × String)) : TemplateArgsCtx :=
  { appName := appName
    appEnv := ""
    k8sNamespace :=
      if kind = .kubernetesApp then
        if specNamespace ≠ "" then specNamespace else "default"
      else ""
    args := customArgs }

/-- One piece of the parsed template text: literal text between placeholders,
or a placeholder referencing a dotted two-component path `.field.sub`, the
form used throughout analysis templates (`.Args.job`, `.App.Name`,
`.K8s.Namespace`). Other placeholder shapes (bare `.App`, deeper chains) do
not occur in analysis templates and are outside the modelled fragment. -/
inductive TemplateChunk where
  | lit (s : String)
  | ref (field sub : String)

/-- Text rendered by Go `text/template` for a map index whose key is absent,
under the default `missingkey` option used by the source. -/
def noValueText : String := "<no value>"

/-- Resolution of one two-component placeholder by Go `text/template`
executed on a `templateArgs` value: the struct fields `App.Name`, `App.Env`
and `K8s.Namespace` resolve to their contents; `Args.k` indexes the
custom-args map and, for an absent key, renders the literal `<no value>` (the
default missingkey behavior of `text/template`, which the source does not
override — a missing map key is not an error). Every other two-component
reference names a field undefined on a struct — a sub-field undefined on the
`App` or `K8s` struct, or an undefined top-level field — which is a
`text/template` execution error. -/
def resolveRef (a : TemplateArgsCtx) (field sub : String) : Except String String :=
  if field = "App" ∧ sub = "Name" then .ok a.appName
  else if field = "App" ∧ sub = "Env" then .ok a.appEnv
  else if field = "K8s" ∧ sub = "Namespace" then .ok a.k8sNamespace
  else if field = "Args" then .ok ((a.args.lookup sub).getD noValueText)
  else .error "failed to apply template"

/-- Rendering of the parsed template text: concatenates literal chunks and
resolved placeholders, propagating the first resolution error, as
`template.Execute` does inside `render`. -/
def renderText (a : TemplateArgsCtx) : List TemplateChunk → Except String String
  | [] => .ok ""
  | .lit s :: rest =>
    match renderText a rest with
    | .error e => .error e
    | .ok r => .ok (s ++ r)
  | .ref f sub :: rest =>
    match resolveRef a f sub with
    | .error e => .error e
    | .ok v =>
      match renderText a rest with
      | .error e => .error e
      | .ok r => .ok (v ++ r)

/-- C5 counterexample: rendering a template that references the argument
`Args.job` with an empty args map does not return a hard error: it succeeds
and substitutes the literal text `<no value>` for the undefined argument
(Go `text/template` default missing-key behavior, not overridden by the
source). -/
theorem C5_undefined_arg_counterexample :
    renderText (buildTemplateArgs "myapp" .kubernetesApp "" [])
        [.lit "rate: ", .ref "Args" "job"]
      = .ok ("rate: " ++ noValueText) ∧
    okB (renderText (buildTemplateArgs "myapp" .kubernetesApp "" [])
        [.lit "rate: ", .ref "Args" "job"]) = true :=
  ⟨rfl, rfl⟩

/-- C5 (amended): a reference in the template document to an argument that is
not defined in the supplied args is not a hard error: the placeholder renders
as the literal text `<no value>` and the render succeeds, so an undefined
argument can never fail a render; a hard error does arise from a reference to
a field undefined on the render context (an undefined top-level field such as
`Foo.Bar`, or an undefined sub-field of `App` or `K8s`). -/
theorem C5_undefined_arg_renders_no_value (a : TemplateArgsCtx) (k : String)
    (pre : String) (f s : String)
    (hk : a.args.lookup k = none)
    (hf : f ≠ "App" ∧ f ≠ "K8s" ∧ f ≠ "Args") :
    renderText a [.lit pre, .ref "Args" k] = .ok (pre ++ noValueText) ∧
    renderText a [.ref "Args" k, .lit pre] = .ok (noValueText ++ pre) ∧
    (∃ e, renderText a [.ref f s] = .error e) := by
  have hargs : resolveRef a "Args" k = .ok noValueText := by
    unfold resolveRef
    rw [if_neg (fun hc => absurd hc.1 (by decide)),
      if_neg (fun hc => absurd hc.1 (by decide)),
      if_neg (fun hc => absurd hc.1 (by decide)), if_pos rfl, hk]
    rfl
  refine ⟨?_, ?_, ?_⟩
  · simp [renderText, hargs]
  · simp [renderText, hargs]
  · refine ⟨"failed to apply template", ?_⟩
    have hres : resolveRef a f s = .error "failed to apply template" := by
      unfold resolveRef
      rw [if_neg (fun hc => hf.1 hc.1), if_neg (fun hc => hf.1 hc.1),
        if_neg (fun hc => hf.2.1 hc.1), if_neg hf.2.2]
    simp [renderText, hres]

/-- Witness for C5 (amended): with an empty args map, the template
`latency: {{ Args.percentile }}` renders to `latency: <no value>`, and the
reference `Foo.Bar` to the undefined top-level field `Foo` is a hard
error. -/
theorem C5_undefined_arg_renders_no_value_witness :
    renderText (buildTemplateArgs "demo" .lambdaApp "" [])
        [.lit "latency: ", .ref "Args" "percentile"]
      = .ok ("latency: " ++ noValueText) ∧
    (∃ e, renderText (buildTemplateArgs "demo" .lambdaApp "" [])
        [.ref "Foo" "Bar"] = .error e) := by
  have h := C5_undefined_arg_renders_no_value
    (buildTemplateArgs "demo" .lambdaApp "" []) "percentile" "latency: "
    "Foo" "Bar" (by decide) ⟨by decide, by decide, by decide⟩
  exact ⟨h.1, h.2.2⟩

/-- C7: for every render, the render context consists of the user args plus
the built-in fields `App.Name`, `App.Env` and `K8s.Namespace`: `App.Name` is
the application name, `App.Env` is left empty, and `K8s.Namespace` is
populated only for Kubernetes deployments, defaulting to `"default"` when the
deployment specifies no namespace and kept `""` for every other application
kind. -/
theorem C7_render_context (appName : String) (kind : AppKind)
    (specNamespace : String) (customArgs : List (String × String)) :
    (buildTemplateArgs appName kind specNamespace customArgs).args = customArgs ∧
    (buildTemplateArgs appName kind specNamespace customArgs).appName = appName ∧
    (buildTemplateArgs appName kind specNamespace customArgs).appEnv = "" ∧
    (buildTemplateArgs appName kind specNamespace customArgs).k8sNamespace =
      (if kind = .kubernetesApp then
        (if specNamespace = "" then "default" else specNamespace)
      else "") := by
  refine ⟨rfl, rfl, rfl, ?_⟩
  unfold buildTemplateArgs
  by_cases hkind : kind = AppKind.kubernetesApp <;>
    by_cases hns : specNamespace = "" <;>
      simp [hkind, hns]

/-! Config resolution: the templatable-check resolvers of the analysis
executor and the dynamic metrics analyzer constructor. -/

/-- Expected range of a static metrics check (config.AnalysisExpected):
optional lower and upper bounds. -/
structure AnalysisExpected where
  min : Option ℚ
  max : Option ℚ
deriving DecidableEq, Repr

/-- Static metrics check (config.AnalysisMetrics) as used by the executor. -/
structure AnalysisMetrics where
  provider : String
  query : String
  expected : AnalysisExpected
  interval : Int
  failureLimit : Nat
  skipOnNoData : Bool
deriving DecidableEq, Repr

/-- Log check (config.AnalysisLog) as used by the executor. -/
structure AnalysisLog where
  provider : String
  query : String
  interval : Int
  failureLimit : Nat
  skipOnNoData : Bool
deriving DecidableEq, Repr

/-- HTTP check (config.AnalysisHTTP) as used by the executor. -/
structure AnalysisHTTP where
  url : String
  method : String
  expectedCode : Nat
  interval : Int
  failureLimit : Nat
  skipOnNoData : Bool
deriving DecidableEq, Repr

/-- Template reference of a templatable check: the named template and the
user args to render it with; an empty name means the check is inline. -/
structure TemplateRef where
  name : String
  args : List (String × String)
deriving DecidableEq, Repr

/-- Templatable metrics check (config.TemplatableAnalysisMetrics): an inline
check together with an optional template reference. -/
structure TemplatableAnalysisMetrics where
  analysisMetrics : AnalysisMetrics
  template : TemplateRef
deriving DecidableEq, Repr

/-- Templatable log check (config.TemplatableAnalysisLog). -/
structure TemplatableAnalysisLog where
  analysisLog : AnalysisLog
  template : TemplateRef
deriving DecidableEq, Repr

/-- Templatable HTTP check (config.TemplatableAnalysisHTTP). -/
structure TemplatableAnalysisHTTP where
  analysisHTTP : AnalysisHTTP
  template : TemplateRef
deriving DecidableEq, Repr

/-- Analysis template document (config.AnalysisTemplateSpec): named check
definitions partitioned by kind. -/
structure AnalysisTemplateSpec where
  metrics : List (String × AnalysisMetrics)
  logs : List (String × AnalysisLog)
  https : List (String × AnalysisHTTP)
deriving DecidableEq, Repr

/-- Modelled from the spec: `config.AnalysisMetrics.Validate` is not among the
sources. Spec section 3 requires `interval > 0` and, for static mode, at least
one bound in `expected` (seed scenario 3 makes a missing `expected` a
configuration error). -/
def validateMetrics (m : AnalysisMetrics) : Except String Unit :=
  if m.expected.min = none ∧ m.expected.max = none then
    .error "expected range is required"
  else if m.interval ≤ 0 then
    .error "interval must be positive"
  else
    .ok ()

/-- Translation of `getMetricsConfig`: with an empty template name the inline
check is validated and returned; otherwise the whole template document is
rendered with the given args (the text-level rendering over the serialized
document is abstracted as the `render` argument) and the named entry is
selected from the rendered document's metrics section; a missing entry is an
error, and a found entry is validated. -/
def getMetricsConfig
    (render : AnalysisTemplateSpec → List (String × String) →
      Except String AnalysisTemplateSpec)
    (templatable : TemplatableAnalysisMetrics)
    (templateCfg : AnalysisTemplateSpec)
    (args : List (String × String)) : Except String AnalysisMetrics :=
  if templatable.template.name = "" then
    match validateMetrics templatable.analysisMetrics with
    | .error e => .error ("invalid metrics configuration: " ++ e)
    | .ok _ => .ok templatable.analysisMetrics
  else
    match render templateCfg args with
    | .error e => .error e
    | .ok rendered =>
      match rendered.metrics.lookup templatable.template.name with
      | none =>
        .error ("analysis template " ++ templatable.template.name ++
          " not found despite template specified")
      | some cfg =>
        match validateMetrics cfg with
        | .error e => .error ("invalid metrics configuration: " ++ e)
        | .ok _ => .ok cfg

/-- Translation of `getLogConfig`: as `getMetricsConfig` but over the logs
section and without a validation step. -/
def getLogConfig
    (render : AnalysisTemplateSpec → List (String × String) →
      Except String AnalysisTemplateSpec)
    (templatable : TemplatableAnalysisLog)
    (templateCfg : AnalysisTemplateSpec)
    (args : List (String × String)) : Except String AnalysisLog :=
  if templatable.template.name = "" then
    .ok templatable.analysisLog
  else
    match render templateCfg args with
    | .error e => .error e
    | .ok rendered =>
      match rendered.logs.lookup templatable.template.name with
      | none =>
        .error ("analysis template " ++ templatable.template.name ++
          " not found despite template specified")
      | some cfg => .ok cfg

/-- Translation of `getHTTPConfig`: as `getLogConfig` but over the https
section. -/
def getHTTPConfig
    (render : AnalysisTemplateSpec → List (String × String) →
      Except String AnalysisTemplateSpec)
    (templatable : TemplatableAnalysisHTTP)
    (templateCfg : AnalysisTemplateSpec)
    (args : List (String × String)) : Except String AnalysisHTTP :=
  if templatable.template.name = "" then
    .ok templatable.analysisHTTP
  else
    match render templateCfg args with
    | .error e => .error e
    | .ok rendered =>
      match rendered.https.lookup templatable.template.name with
      | none =>
        .error ("analysis template " ++ templatable.template.name ++
          " not found despite template specified")
      | some cfg => .ok cfg

/-- Strategy of the dynamic metrics analyzer (dynamic_analyzer.go). -/
inductive DynamicMetricsStrategy where
  | canaryWithBaseline
  | canaryWithPrimary
  | previous
deriving DecidableEq, Repr

/-- Dynamic metrics block (config.AnalysisDynamicMetrics): the referenced
template name and the per-variant args. -/
structure AnalysisDynamicMetrics where
  template : String
  primaryArgs : List (String × String)
  canaryArgs : List (String × String)
  baselineArgs : List (String × String)
deriving DecidableEq, Repr

/-- State of a constructed dynamic metrics analyzer (dynamicMetricsAnalyzer). -/
structure DynamicMetricsAnalyzer where
  strategy : DynamicMetricsStrategy
  cfg : AnalysisMetrics
  primaryArgs : List (String × String)
  canaryArgs : List (String × String)
  baselineArgs : List (String × String)
deriving DecidableEq, Repr

/-- Translation of `newDynamicMetricsAnalyzer`: looks the referenced template
name up in the metrics section of the given template document and fails when
it is absent; otherwise carries the found check and the per-variant args into
the analyzer state. -/
def newDynamicMetricsAnalyzer (strategy : DynamicMetricsStrategy)
    (templateRef : AnalysisDynamicMetrics)
    (templates : AnalysisTemplateSpec) : Except String DynamicMetricsAnalyzer :=
  match templates.metrics.lookup templateRef.template with
  | none => .error ("template " ++ templateRef.template ++ " not found")
  | some cfg =>
    .ok ⟨strategy, cfg, templateRef.primaryArgs, templateRef.canaryArgs,
      templateRef.baselineArgs⟩

/-- C8: when a templatable check names a template, the named entry is selected
by kind from the (for the static resolvers: rendered) template document, and
its absence is a construction-time error, for metrics, log and http
resolution alike; likewise the dynamic metrics analyzer constructor fails
when the referenced template is absent from the document's metrics section. -/
theorem C8_missing_template_entry_errors
    (render : AnalysisTemplateSpec → List (String × String) →
      Except String AnalysisTemplateSpec)
    (tm : TemplatableAnalysisMetrics) (tl : TemplatableAnalysisLog)
    (th : TemplatableAnalysisHTTP) (templateCfg rendered : AnalysisTemplateSpec)
    (args : List (String × String)) (strategy : DynamicMetricsStrategy)
    (dref : AnalysisDynamicMetrics)
    (hrender : render templateCfg args = .ok rendered) :
    (tm.template.name ≠ "" → rendered.metrics.lookup tm.template.name = none →
      okB (getMetricsConfig render tm templateCfg args) = false) ∧
    (tl.template.name ≠ "" → rendered.logs.lookup tl.template.name = none →
      okB (getLogConfig render tl templateCfg args) = false) ∧
    (th.template.name ≠ "" → rendered.https.lookup th.template.name = none →
      okB (getHTTPConfig render th templateCfg args) = false) ∧
    (∀ templates : AnalysisTemplateSpec,
      templates.metrics.lookup dref.template = none →
        okB (newDynamicMetricsAnalyzer strategy dref templates) = false) := by
  refine ⟨?_, ?_, ?_, ?_⟩
  · intro hname hmiss
    simp [getMetricsConfig, hname, hrender, hmiss, okB]
  · intro hname hmiss
    simp [getLogConfig, hname, hrender, hmiss, okB]
  · intro hname hmiss
    simp [getHTTPConfig, hname, hrender, hmiss, okB]
  · intro templates hmiss
    simp [newDynamicMetricsAnalyzer, hmiss, okB]

/-- Empty analysis template document, as produced for a missing template
file. -/
def emptyTemplateSpec : AnalysisTemplateSpec :=
  { metrics := [], logs := [], https := [] }

/-- Identity renderer sample: returns the document unchanged, as rendering a
document without placeholders does. -/
def renderIdentity : AnalysisTemplateSpec → List (String × String) →
    Except String AnalysisTemplateSpec :=
  fun t _ => .ok t

/-- Inline metrics check sample referencing the template name
`"http_error_rate"`. -/
def templatableMetricsSample : TemplatableAnalysisMetrics :=
  { analysisMetrics :=
      { provider := ""
        query := ""
        expected := { min := none, max := none }
        interval := 0
        failureLimit := 0
        skipOnNoData := false }
    template := { name := "http_error_rate", args := [] } }

/-- Inline log check sample referencing the template name
`"http_error_rate"`. -/
def templatableLogSample : TemplatableAnalysisLog :=
  { analysisLog :=
      { provider := ""
        query := ""
        interval := 0
        failureLimit := 0
        skipOnNoData := false }
    template := { name := "http_error_rate", args := [] } }

/-- Inline HTTP check sample referencing the template name
`"http_error_rate"`. -/
def templatableHTTPSample : TemplatableAnalysisHTTP :=
  { analysisHTTP :=
      { url := ""
        method := ""
        expectedCode := 0
        interval := 0
        failureLimit := 0
        skipOnNoData := false }
    template := { name := "http_error_rate", args := [] } }

/-- Dynamic metrics block sample referencing the template name
`"http_error_rate"`. -/
def dynamicMetricsSample : AnalysisDynamicMetrics :=
  { template := "http_error_rate"
    primaryArgs := []
    canaryArgs := []
    baselineArgs := [] }

/-- Witness for C8: resolving the template name `"http_error_rate"` against
the empty template document fails for the metrics, log and http resolvers and
for the dynamic analyzer constructor. -/
theorem C8_missing_template_entry_errors_witness :
    okB (getMetricsConfig renderIdentity templatableMetricsSample
      emptyTemplateSpec []) = false ∧
    okB (getLogConfig renderIdentity templatableLogSample
      emptyTemplateSpec []) = false ∧
    okB (getHTTPConfig renderIdentity templatableHTTPSample
      emptyTemplateSpec []) = false ∧
    okB (newDynamicMetricsAnalyzer .previous dynamicMetricsSample
      emptyTemplateSpec) = false := by
  have h := C8_missing_template_entry_errors renderIdentity
    templatableMetricsSample templatableLogSample templatableHTTPSample
    emptyTemplateSpec emptyTemplateSpec [] .previous dynamicMetricsSample rfl
  exact ⟨h.1 (by decide) rfl, h.2.1 (by decide) rfl, h.2.2.1 (by decide) rfl,
    h.2.2.2 emptyTemplateSpec rfl⟩

/-! Static threshold analysis. The implementation of
`metricsAnalyzer.analyzeWithThreshold` is not among the sources; only its test
`Test_metricsAnalyzer_analyzeWithThreshold` is. The model below is written
from the spec and reproduces every test vector of that test. -/

/-- Whether a single data-point value lies inside the expected range: at least
the configured minimum (when given) and at most the configured maximum (when
given). -/
def withinExpected (e : AnalysisExpected) (v : ℚ) : Bool :=
  (match e.min with
   | some lo => decide (lo ≤ v)
   | none => true) &&
  (match e.max with
   | some hi => decide (v ≤ hi)
   | none => true)

/-- Modelled from the spec: `metricsAnalyzer.analyzeWithThreshold` is not
among the sources (only its test is). Spec 4.4 and 8: the tick queries the
provider for the points of `[now-interval, now]` and succeeds iff every
returned point lies within `expected`; a missing `expected` (no bound at all)
is an error, and a provider query error is an error. The provider query is
abstracted as its outcome `queryOutcome`. -/
def analyzeWithThreshold (expected : AnalysisExpected)
    (queryOutcome : Except String (List ℚ)) : Except String Bool :=
  if expected.min = none ∧ expected.max = none then
    .error "expected field is required to analyze with threshold"
  else
    match queryOutcome with
    | .error e => .error e
    | .ok points => .ok (points.all (withinExpected expected))

/-- C6: for every static metrics check with `expected = {max: M}`, a tick
succeeds iff every returned point's value is at most `M`; analogously for a
min bound and for both bounds together, so a single point outside the
expected range fails the tick. The statement also reproduces the four vectors
of `Test_metricsAnalyzer_analyzeWithThreshold`: points `[0.9, 1.1, 0.8]`
against `{max: 1}` fail, points `[0.9, 0.9, 0.8]` succeed, a missing
`expected` is an error, and a failed query is an error. -/
theorem C6_threshold_tick (M lo : ℚ) (pts : List ℚ) :
    analyzeWithThreshold ⟨none, some M⟩ (.ok pts)
      = .ok (pts.all fun v => decide (v ≤ M)) ∧
    analyzeWithThreshold ⟨some lo, none⟩ (.ok pts)
      = .ok (pts.all fun v => decide (lo ≤ v)) ∧
    analyzeWithThreshold ⟨some lo, some M⟩ (.ok pts)
      = .ok (pts.all fun v => decide (lo ≤ v) && decide (v ≤ M)) ∧
    analyzeWithThreshold ⟨none, some 1⟩ (.ok [0.9, 1.1, 0.8]) = .ok false ∧
    analyzeWithThreshold ⟨none, some 1⟩ (.ok [0.9, 0.9, 0.8]) = .ok true ∧
    okB (analyzeWithThreshold ⟨none, none⟩ (.ok [])) = false ∧
    okB (analyzeWithThreshold ⟨none, some 1⟩ (.error "query failed")) = false := by
  refine ⟨?_, ?_, ?_, ?_, ?_, by decide, by decide⟩
  · have hfun : withinExpected ⟨none, some M⟩ = fun v => decide (v ≤ M) := by
      funext v
      simp [withinExpected]
    simp [analyzeWithThreshold, hfun]
  · have hfun : withinExpected ⟨some lo, none⟩ = fun v => decide (lo ≤ v) := by
      funext v
      simp [withinExpected]
    simp [analyzeWithThreshold, hfun]
  · have hfun : withinExpected ⟨some lo, some M⟩
        = fun v => decide (lo ≤ v) && decide (v ≤ M) := by
      funext v
      simp [withinExpected]
    simp [analyzeWithThreshold, hfun]
  · have h1 : ¬((1.1 : ℚ) ≤ 1) := by norm_num
    simp [analyzeWithThreshold, withinExpected, h1]
  · have h1 : (0.9 : ℚ) ≤ 1 := by norm_num
    have h2 : (0.8 : ℚ) ≤ 1 := by norm_num
    simp [analyzeWithThreshold, withinExpected, h1, h2]

/-! Mann-Whitney rank-sum comparison. The implementation of `compare` is not
among the sources; only its test `Test_compare` is. The model below is written
from the spec (section 4.6) and reproduces every test vector of that test. -/

/-- Number of elements of the pooled sample strictly below `x`. -/
def countLt (pool : List ℚ) (x : ℚ) : ℕ :=
  (pool.filter fun y => decide (y < x)).length

/-- Number of elements of the pooled sample equal to `x`. -/
def countEq (pool : List ℚ) (x : ℚ) : ℕ :=
  (pool.filter fun y => decide (y = x)).length

/-- Modelled from the spec: ascending 1-based rank of `x` in the pooled
sample, with tied values receiving the average of their ranks: the elements
below `x` occupy the first `countLt` ranks and the `countEq` tied copies of
`x` average to `countLt + (countEq + 1) / 2`. -/
def avgRank (pool : List ℚ) (x : ℚ) : ℚ :=
  countLt pool x + ((countEq pool x : ℚ) + 1) / 2

/-- Sum of the pooled ranks of one sample. -/
def rankSumOf (pool sample : List ℚ) : ℚ :=
  (sample.map (avgRank pool)).sum

/-- Modelled from the spec: the Mann-Whitney statistic
`U_a = R_a - n_a (n_a + 1) / 2` of the first sample. -/
def uStatistic (a b : List ℚ) : ℚ :=
  rankSumOf (a ++ b) a - a.length * ((a.length : ℚ) + 1) / 2

/-- Standard tie-adjustment term `sum (t^3 - t)` over the tie groups of the
pooled sample, computed per element as `sum (t(x)^2 - 1)` (each group of `t`
tied elements contributes `t` summands of `t^2 - 1`, totalling `t^3 - t`). -/
def tieTerm (pool : List ℚ) : ℚ :=
  (pool.map fun x => ((countEq pool x : ℚ)) ^ 2 - 1).sum

/-- Modelled from the spec: the tie-corrected variance of `U` under the null
hypothesis, `n m / 12 * ((N + 1) - tieTerm / (N (N - 1)))` for sample sizes
`n`, `m` and pooled size `N = n + m`. -/
def sigmaSq (a b : List ℚ) : ℚ :=
  let n : ℚ := a.length
  let m : ℚ := b.length
  let bigN : ℚ := n + m
  n * m / 12 * ((bigN + 1) - tieTerm (a ++ b) / (bigN * (bigN - 1)))

/-- Numerator of the standard normal statistic `z`:
`U_a - n_a n_b / 2`. -/
def deviationNumer (a b : List ℚ) : ℚ :=
  uStatistic a b - a.length * (b.length : ℚ) / 2

/-- Square of the two-sided critical value of the standard normal at
`alpha = 0.05`: the two-sided p-value is below alpha iff `|z|` exceeds
`1.95996... = Phi-inverse(0.975)`, whose square is `3.8415` to the precision
relevant here. -/
def criticalSq : ℚ := 38415 / 10000

/-- Modelled from the spec: whether the two samples deviate significantly:
the tie-corrected variance is positive (all-identical pools report "no
deviation") and the two-sided p-value is below alpha, equivalently
`z^2 > criticalSq`, stated multiplied out as
`deviationNumer^2 > criticalSq * sigmaSq`. -/
def significantDeviation (a b : List ℚ) : Bool :=
  decide (0 < sigmaSq a b) &&
    decide (criticalSq * sigmaSq a b < deviationNumer a b ^ 2)

/-- Arithmetic mean of a sample. -/
def sampleMean (l : List ℚ) : ℚ := l.sum / l.length

/-- Modelled from the spec: the `compare` primitive of the dynamic analysis.
Samples with fewer than two points are insufficient data; otherwise the
deviation direction decides: `EITHER` fails on any significant deviation,
`HIGH` fails when the deviation is significant and the experiment mean
exceeds the control mean, `LOW` symmetrically below. -/
def compare (experiment control : List ℚ) (deviation : String) :
    Except String Unit :=
  if experiment.length < 2 ∨ control.length < 2 then
    .error "not enough data points to compare"
  else if deviation = "EITHER" then
    if significantDeviation experiment control = true then
      .error "the deviation is statistically significant"
    else
      .ok ()
  else if deviation = "HIGH" then
    if significantDeviation experiment control = true ∧
        sampleMean control < sampleMean experiment then
      .error "the deviation on the high direction is statistically significant"
    else
      .ok ()
  else if deviation = "LOW" then
    if significantDeviation experiment control = true ∧
        sampleMean experiment < sampleMean control then
      .error "the deviation on the low direction is statistically significant"
    else
      .ok ()
  else
    .error "unknown deviation direction"

/-- C4: for the rank-sum comparison of an experiment sample and a control
sample with at least two points each: with `HIGH` the comparison fails exactly
when the deviation is significant and the experiment's distribution sits above
the control's (its mean is greater), with `LOW` exactly when significantly
below, and with `EITHER` exactly when the deviation is significant in either
direction; a significant deviation in the direction not disallowed does not
fail. The statement also reproduces all six vectors of `Test_compare`: equal
samples under `EITHER` pass; `[10.1..10.5]` against `[0.1..0.5]` passes under
`LOW` and fails under `HIGH`; `[0.1..0.5]` against `[10.1..10.5]` passes under
`HIGH` and fails under `LOW`; and `[0.1, 0.2, 5.3, 0.2, 0.5]` against five
copies of `0.1` fails under `EITHER`. -/
theorem C4_deviation_direction (a b : List ℚ)
    (ha : 2 ≤ a.length) (hb : 2 ≤ b.length) :
    (okB (compare a b "HIGH") = false ↔
      significantDeviation a b = true ∧ sampleMean b < sampleMean a) ∧
    (okB (compare a b "LOW") = false ↔
      significantDeviation a b = true ∧ sampleMean a < sampleMean b) ∧
    (okB (compare a b "EITHER") = false ↔ significantDeviation a b = true) ∧
    okB (compare [(0.1 : ℚ), 0.2, 0.3, 0.4, 0.5]
      [(0.1 : ℚ), 0.2, 0.3, 0.4, 0.5] "EITHER") = true ∧
    okB (compare [(10.1 : ℚ), 10.2, 10.3, 10.4, 10.5]
      [(0.1 : ℚ), 0.2, 0.3, 0.4, 0.5] "LOW") = true ∧
    okB (compare [(0.1 : ℚ), 0.2, 0.3, 0.4, 0.5]
      [(10.1 : ℚ), 10.2, 10.3, 10.4, 10.5] "HIGH") = true ∧
    okB (compare [(10.1 : ℚ), 10.2, 10.3, 10.4, 10.5]
      [(0.1 : ℚ), 0.2, 0.3, 0.4, 0.5] "HIGH") = false ∧
    okB (compare [(0.1 : ℚ), 0.2, 0.3, 0.4, 0.5]
      [(10.1 : ℚ), 10.2, 10.3, 10.4, 10.5] "LOW") = false ∧
    okB (compare [(0.1 : ℚ), 0.2, 5.3, 0.2, 0.5]
      [(0.1 : ℚ), 0.1, 0.1, 0.1, 0.1] "EITHER") = false := by
  have hsigLL : significantDeviation [(0.1 : ℚ), 0.2, 0.3, 0.4, 0.5]
      [(0.1 : ℚ), 0.2, 0.3, 0.4, 0.5] = false := by
    have hs : sigmaSq [(0.1 : ℚ), 0.2, 0.3, 0.4, 0.5]
        [(0.1 : ℚ), 0.2, 0.3, 0.4, 0.5] = 200 / 9 := by
      norm_num [sigmaSq, tieTerm, countEq, List.filter]
    have hn : deviationNumer [(0.1 : ℚ), 0.2, 0.3, 0.4, 0.5]
        [(0.1 : ℚ), 0.2, 0.3, 0.4, 0.5] = 0 := by
      norm_num [deviationNumer, uStatistic, rankSumOf, avgRank, countLt,
        countEq, List.filter]
    rw [significantDeviation, hs, hn]
    norm_num [criticalSq]
  have hsigHL : significantDeviation [(10.1 : ℚ), 10.2, 10.3, 10.4, 10.5]
      [(0.1 : ℚ), 0.2, 0.3, 0.4, 0.5] = true := by
    have hs : sigmaSq [(10.1 : ℚ), 10.2, 10.3, 10.4, 10.5]
        [(0.1 : ℚ), 0.2, 0.3, 0.4, 0.5] = 275 / 12 := by
      norm_num [sigmaSq, tieTerm, countEq, List.filter]
    have hn : deviationNumer [(10.1 : ℚ), 10.2, 10.3, 10.4, 10.5]
        [(0.1 : ℚ), 0.2, 0.3, 0.4, 0.5] = 25 / 2 := by
      norm_num [deviationNumer, uStatistic, rankSumOf, avgRank, countLt,
        countEq, List.filter]
    rw [significantDeviation, hs, hn]
    norm_num [criticalSq]
  have hsigLH : significantDeviation [(0.1 : ℚ), 0.2, 0.3, 0.4, 0.5]
      [(10.1 : ℚ), 10.2, 10.3, 10.4, 10.5] = true := by
    have hs : sigmaSq [(0.1 : ℚ), 0.2, 0.3, 0.4, 0.5]
        [(10.1 : ℚ), 10.2, 10.3, 10.4, 10.5] = 275 / 12 := by
      norm_num [sigmaSq, tieTerm, countEq, List.filter]
    have hn : deviationNumer [(0.1 : ℚ), 0.2, 0.3, 0.4, 0.5]
        [(10.1 : ℚ), 10.2, 10.3, 10.4, 10.5] = -(25 / 2) := by
      norm_num [deviationNumer, uStatistic, rankSumOf, avgRank, countLt,
        countEq, List.filter]
    rw [significantDeviation, hs, hn]
    norm_num [criticalSq]
  have hsigSO : significantDeviation [(0.1 : ℚ), 0.2, 5.3, 0.2, 0.5]
      [(0.1 : ℚ), 0.1, 0.1, 0.1, 0.1] = true := by
    have hs : sigmaSq [(0.1 : ℚ), 0.2, 5.3, 0.2, 0.5]
        [(0.1 : ℚ), 0.1, 0.1, 0.1, 0.1] = 215 / 12 := by
      norm_num [sigmaSq, tieTerm, countEq, List.filter]
    have hn : deviationNumer [(0.1 : ℚ), 0.2, 5.3, 0.2, 0.5]
        [(0.1 : ℚ), 0.1, 0.1, 0.1, 0.1] = 10 := by
      norm_num [deviationNumer, uStatistic, rankSumOf, avgRank, countLt,
        countEq, List.filter]
    rw [significantDeviation, hs, hn]
    norm_num [criticalSq]
  have hmeanLH : sampleMean [(0.1 : ℚ), 0.2, 0.3, 0.4, 0.5]
      < sampleMean [(10.1 : ℚ), 10.2, 10.3, 10.4, 10.5] := by
    norm_num [sampleMean]
  refine ⟨?_, ?_, ?_, ?_, ?_, ?_, ?_, ?_, ?_⟩
  · unfold compare
    rw [if_neg (by omega), if_neg (by decide), if_pos rfl]
    by_cases hc : significantDeviation a b = true ∧ sampleMean b < sampleMean a
    · rw [if_pos hc]
      simp [okB, hc]
    · rw [if_neg hc]
      simp [okB, hc]
  · unfold compare
    rw [if_neg (by omega), if_neg (by decide), if_neg (by decide), if_pos rfl]
    by_cases hc : significantDeviation a b = true ∧ sampleMean a < sampleMean b
    · rw [if_pos hc]
      simp [okB, hc]
    · rw [if_neg hc]
      simp [okB, hc]
  · unfold compare
    rw [if_neg (by omega), if_pos rfl]
    by_cases hc : significantDeviation a b = true
    · rw [if_pos hc]
      simp [okB, hc]
    · rw [if_neg hc]
      simp [okB, hc]
  · unfold compare
    rw [if_neg (by norm_num), if_pos rfl, if_neg (by rw [hsigLL]; simp)]
    rfl
  · unfold compare
    rw [if_neg (by norm_num), if_neg (by decide), if_neg (by decide),
      if_pos rfl, if_neg (fun hc => lt_asymm hmeanLH hc.2)]
    rfl
  · unfold compare
    rw [if_neg (by norm_num), if_neg (by decide), if_pos rfl,
      if_neg (fun hc => lt_asymm hmeanLH hc.2)]
    rfl
  · unfold compare
    rw [if_neg (by norm_num), if_neg (by decide), if_pos rfl,
      if_pos ⟨hsigHL, hmeanLH⟩]
    rfl
  · unfold compare
    rw [if_neg (by norm_num), if_neg (by decide), if_neg (by decide),
      if_pos rfl, if_pos ⟨hsigLH, hmeanLH⟩]
    rfl
  · unfold compare
    rw [if_neg (by norm_num), if_pos rfl, if_pos hsigSO]
    rfl

/-- Witness for C4: for the samples `[0.1..0.5]` against `[10.1..10.5]`
(both of length 5 ≥ 2) the `EITHER` comparison fails exactly when the
deviation between the two samples is significant. -/
theorem C4_deviation_direction_witness :
    okB (compare [(0.1 : ℚ), 0.2, 0.3, 0.4, 0.5]
      [(10.1 : ℚ), 10.2, 10.3, 10.4, 10.5] "EITHER") = false ↔
      significantDeviation [(0.1 : ℚ), 0.2, 0.3, 0.4, 0.5]
        [(10.1 : ℚ), 10.2, 10.3, 10.4, 10.5] = true :=
  (C4_deviation_direction [(0.1 : ℚ), 0.2, 0.3, 0.4, 0.5]
    [(10.1 : ℚ), 10.2, 10.3, 10.4, 10.5] (by norm_num) (by norm_num)).2.2.1

/-! Dynamic analyzer tick loop as shipped: `dynamicMetricsAnalyzer.run` in
`dynamic_analyzer.go` installs a ticker and, on each tick, switches on the
strategy — but every strategy case has an empty body (the `Previous` case
carries only a FIXME comment); the loop returns `nil` on context
cancellation. -/

/-- Translation of the per-tick body of `dynamicMetricsAnalyzer.run`: the
first component lists the provider queries issued during the tick, the second
is an error terminating the loop. Each of the three strategy cases in the
source switch is empty, so every tick issues no query and produces no
error. -/
def dynamicAnalyzerTick (strategy : DynamicMetricsStrategy) :
    List String × Option String :=
  match strategy with
  | .previous => ([], none)
  | .canaryWithBaseline => ([], none)
  | .canaryWithPrimary => ([], none)

/-- Translation of the `run` loop of `dynamicMetricsAnalyzer` observed over
`n` ticks followed by context cancellation: accumulates the queries issued by
each tick and stops early on a tick error; on cancellation the loop returns
no error (`nil`). -/
def dynamicAnalyzerRun (strategy : DynamicMetricsStrategy) :
    Nat → List String × Option String
  | 0 => ([], none)
  | n + 1 =>
    match dynamicAnalyzerTick strategy with
    | (qs, some e) => (qs, some e)
    | (qs, none) =>
      let rest := dynamicAnalyzerRun strategy n
      (qs ++ rest.1, rest.2)

/-- C3: evaluation of the shipped per-tick behavior of the dynamic
(comparative) metrics analyzer: for every strategy and any number of ticks,
`run` issues no provider query and never returns an error — the tick body is
an unimplemented stub — contradicting the claimed per-tick algorithm
(two concurrent `QueryPoints` calls over `[now-interval, now]` followed by a
Mann-Whitney evaluation that can fail the tick). -/
theorem C3_dynamic_tick_is_stubbed (strategy : DynamicMetricsStrategy) (n : Nat) :
    dynamicAnalyzerTick strategy = ([], none) ∧
    dynamicAnalyzerRun strategy n = ([], none) := by
  have htick : dynamicAnalyzerTick strategy = ([], none) := by
    cases strategy <;> rfl
  refine ⟨htick, ?_⟩
  induction n with
  | zero => rfl
  | succ n ih =>
    rw [dynamicAnalyzerRun, htick, ih]
    rfl

end Pipe
